import Mathlib

/-!
Verification of the AI-Chat-System browser client.

The repository consists of a small HTTP gateway module (api.js) and a
state controller (src/js/app.js) that owns the session list, the
selected-session pointer and the message sequence of the selected
session.  This file gives a shallow embedding of both layers:

* JS strings are Lean strings; for the URL-building fragment, which
  manipulates individual characters, they are modelled as lists of
  characters.
* The asynchronous gateway is modelled as a record of deterministic
  response functions (a call either returns a typed value or an error
  carrying a message string); each controller transition is then a pure
  function from the pre-state to the post-state, as each JS handler is
  atomic between its awaited gateway calls and we only observe the state
  at the end of a transition.
* setTimeout-based error expiry is modelled by an explicit event list
  (see the timer section below).
-/

namespace AIChat

/-- A session record as returned by the backend
    (fields id, name, message_count, updated_at of api.js). -/
structure Session where
  id : String
  name : String
  message_count : Nat
  updated_at : String
deriving DecidableEq, Repr

/-- A chat message (fields role, content, created_at used by app.js). -/
structure Msg where
  role : String
  content : String
  created_at : String
deriving DecidableEq, Repr

/-- The reactive state owned by setupApp in src/js/app.js:
    sessions, currentSessionId, messages, newMessage, loading, error.
    currentSessionId is a string ref initialised to null, hence Option. -/
structure AppState where
  sessions : List Session
  currentSessionId : Option String
  messages : List Msg
  newMessage : String
  loading : Bool
  error : String
deriving DecidableEq, Repr

/-- A minimal JSON value, the payload of a parsed response body. -/
inductive JVal where
  | nullv : JVal
  | boolv : Bool → JVal
  | num : Int → JVal
  | str : String → JVal
  | arr : List JVal → JVal
  | obj : List (String × JVal) → JVal

/-- Error thrown by a gateway call; carries the JS Error message. -/
structure GwError where
  message : String
deriving DecidableEq, Repr

/-- Shape of the value resolved by a message-returning endpoint, as
    discriminated by app.js: an array, an object with a messages field,
    or anything else. -/
inductive MsgResp where
  | arr : List Msg → MsgResp
  | objMessages : List Msg → MsgResp
  | other : MsgResp
deriving DecidableEq, Repr

/-- Whether a response value is an array (the Array.isArray test). -/
def MsgResp.isArr : MsgResp → Bool
  | .arr _ => true
  | _ => false

/-- Shape of the value resolved by the session-list endpoint, as
    discriminated by app.js (Array.isArray or not). -/
inductive SessResp where
  | arr : List Session → SessResp
  | other : SessResp
deriving DecidableEq, Repr

/-- The remote gateway (api.js), as a record of deterministic responses:
    one entry per exported endpoint function. -/
structure Gateway where
  listSessions : Except GwError SessResp
  createSession : Except GwError SessResp
  getMessages : String → Except GwError MsgResp
  sendMessage : String → String → Except GwError MsgResp
  rollback : String → Nat → Except GwError MsgResp
  deleteMessage : String → Nat → Except GwError MsgResp
  deleteSession : String → Except GwError Unit

/-! ## The HTTP wrapper apiFetch (api.js)

The URL-building step and the response-handling step of apiFetch are
embedded separately; the network round trip between them is external.
-/

/-- The JS expression apiBase.replace with the regular expression of a
    single slash anchored at the end: removes one trailing slash
    character when present. -/
def jsStripTrailingSlash (s : List Char) : List Char :=
  if s.getLast? = some '/' then s.dropLast else s

/-- URL built by apiFetch: stripped base concatenated with the path. -/
def apiUrl (base path : List Char) : List Char :=
  jsStripTrailingSlash base ++ path

/-- Auxiliary: the needle occurs contiguously in the haystack. -/
def listIncludes (sub : List Char) : List Char → Bool
  | [] => sub.isEmpty
  | c :: rest => sub.isPrefixOf (c :: rest) || listIncludes sub rest

/-- The JS includes test on strings: the needle occurs contiguously. -/
def includesStr (s sub : String) : Bool :=
  listIncludes sub.data s.data

/-- An HTTP response as observed by apiFetch: status, statusText, the
    content-type header (empty string when absent), the raw body text
    and the JSON value the body parses to. -/
structure HttpResponse where
  status : Nat
  statusText : String
  contentType : String
  bodyText : String
  jsonVal : JVal

/-- Result of apiFetch: a parsed JSON value or opaque text. -/
inductive FetchOut where
  | json : JVal → FetchOut
  | text : String → FetchOut

/-- Response handling of apiFetch: res.ok is the WHATWG fetch predicate
    status in 200..299; a non-ok response throws an error embedding the
    status and statusText; an ok response is parsed as JSON when the
    content-type contains application/json, else returned as text. -/
def apiFetch (r : HttpResponse) : Except String FetchOut :=
  if ¬ (200 ≤ r.status ∧ r.status ≤ 299) then
    .error ("API error: " ++ toString r.status ++ " " ++ r.statusText)
  else if includesStr r.contentType "application/json" then
    .ok (.json r.jsonVal)
  else
    .ok (.text r.bodyText)

/-! ## The state controller (src/js/app.js)

Each async handler of setupApp becomes a pure transition function from
the pre-state to the post-state for a fixed gateway.  The transient
loading flag toggled at the boundaries of a handler is reflected by its
final value; intermediate values are not observable at the end of the
transition.  Error strings are kept verbatim from the source.
-/

/-- JS falsiness of the currentSessionId ref: null or the empty string. -/
def idFalsy : Option String → Bool
  | none => true
  | some s => s == ""

/-- The repeated app.js reconciliation snippet for message-returning
    endpoints: an array replaces the list, an object with a messages
    field supplies it, anything else leaves the list unchanged. -/
def applyMsgResp (st : AppState) : MsgResp → AppState
  | .arr ms => { st with messages := ms }
  | .objMessages ms => { st with messages := ms }
  | .other => st

/-- Array.isArray coercion applied by loadSessionsList to the session
    response: a non-array result becomes the empty list. -/
def sessArr : SessResp → List Session
  | .arr ss => ss
  | .other => []

/-- loadMessagesList: no-op when no session is selected (falsy ref);
    otherwise fetch, replacing the messages with the result when it is
    an array and with the empty list otherwise; a thrown gateway error
    is caught and surfaced in the error slot, messages untouched. -/
def loadMessagesList (gw : Gateway) (st : AppState) : AppState :=
  if idFalsy st.currentSessionId then st
  else
    match gw.getMessages (st.currentSessionId.getD "") with
    | .ok (.arr ms) => { st with error := "", loading := false, messages := ms }
    | .ok _ => { st with error := "", loading := false, messages := [] }
    | .error e =>
        { st with error := "加载消息失败：" ++ e.message, loading := false }

/-- loadSessionsList: fetch the session list, replace the local list
    with the result coerced through Array.isArray; then, when the new
    list is non-empty and no session is selected, select the first
    session and load its messages; a thrown error is caught and
    surfaced, list untouched. -/
def loadSessionsList (gw : Gateway) (st : AppState) : AppState :=
  match gw.listSessions with
  | .error e => { st with error := "加载会话列表失败：" ++ e.message }
  | .ok r =>
    match idFalsy st.currentSessionId, sessArr r with
    | true, s0 :: rest =>
        loadMessagesList gw
          { st with error := "", sessions := s0 :: rest,
                    currentSessionId := some s0.id }
    | _, ss => { st with error := "", sessions := ss }

/-- selectSession: no-op when the id is falsy or already selected;
    otherwise move the pointer and load that session. -/
def selectSession (gw : Gateway) (id : String) (st : AppState) : AppState :=
  if id = "" ∨ st.currentSessionId = some id then st
  else loadMessagesList gw { st with currentSessionId := some id }

/-- createNewSession: create via the gateway; on success clear the
    message list and refresh the session list; on failure surface the
    error. -/
def createNewSession (gw : Gateway) (st : AppState) : AppState :=
  match gw.createSession with
  | .ok _ =>
      { loadSessionsList gw { st with error := "", messages := [] }
        with loading := false }
  | .error e =>
      { st with error := "新建会话失败：" ++ e.message, loading := false }

/-- The JS trim method: removes leading and trailing whitespace. -/
def jsTrim (s : String) : String :=
  ⟨((s.data.dropWhile Char.isWhitespace).reverse.dropWhile
      Char.isWhitespace).reverse⟩

/-- The locally synthesized optimistic user message of sendMsg. -/
def optimisticUserMsg (text now : String) : Msg :=
  { role := "user", content := text, created_at := now }

/-- sendMsg: with a falsy session pointer, set the prompt error and
    return; with empty trimmed text, return untouched.  Otherwise push
    an optimistic user message stamped with the local clock, clear the
    input, call the gateway; on success reconcile with the response and
    refresh the session list; on failure pop the optimistic message and
    surface the error. -/
def sendMsg (gw : Gateway) (now : String) (st : AppState) : AppState :=
  if idFalsy st.currentSessionId then
    { st with error := "请先选择或创建会话" }
  else if (jsTrim st.newMessage) = "" then st
  else
    match gw.sendMessage (st.currentSessionId.getD "") (jsTrim st.newMessage) with
    | .ok r =>
        { loadSessionsList gw
            (applyMsgResp
              { st with error := "",
                        messages := st.messages ++
                          [optimisticUserMsg (jsTrim st.newMessage) now],
                        newMessage := "" } r)
          with loading := false }
    | .error e =>
        { st with
            messages :=
              (st.messages ++
                [optimisticUserMsg (jsTrim st.newMessage) now]).dropLast,
            newMessage := "",
            error := "发送消息失败：" ++ e.message,
            loading := false }

/-- rollbackTo: no-op with a falsy pointer; otherwise call the rollback
    endpoint, reconcile on success and refresh the session list, or
    surface the error on failure. -/
def rollbackTo (gw : Gateway) (index : Nat) (st : AppState) : AppState :=
  if idFalsy st.currentSessionId then st
  else
    match gw.rollback (st.currentSessionId.getD "") index with
    | .ok r =>
        { loadSessionsList gw (applyMsgResp { st with error := "" } r)
          with loading := false }
    | .error e =>
        { st with error := "回滚失败：" ++ e.message, loading := false }

/-- deleteMsg: no-op with a falsy pointer or when the confirm dialog is
    declined; otherwise symmetric to rollbackTo. -/
def deleteMsg (gw : Gateway) (confirmed : Bool) (index : Nat)
    (st : AppState) : AppState :=
  if idFalsy st.currentSessionId then st
  else if ¬ confirmed then st
  else
    match gw.deleteMessage (st.currentSessionId.getD "") index with
    | .ok r =>
        { loadSessionsList gw (applyMsgResp { st with error := "" } r)
          with loading := false }
    | .error e =>
        { st with error := "删除消息失败：" ++ e.message, loading := false }

/-- deleteSess: no-op when the confirm dialog is declined; otherwise
    delete via the gateway; on success refresh the session list, and
    when the deleted session is still the selected one, select the
    first remaining session and load its messages, or clear the pointer
    and messages when none remain; on failure surface the error. -/
def deleteSess (gw : Gateway) (confirmed : Bool) (sessionId : String)
    (st : AppState) : AppState :=
  if ¬ confirmed then st
  else
    match gw.deleteSession sessionId with
    | .error e =>
        { st with error := "删除会话失败：" ++ e.message, loading := false }
    | .ok _ =>
        let st2 := loadSessionsList gw { st with error := "" }
        if st2.currentSessionId = some sessionId then
          match st2.sessions with
          | s0 :: _ =>
              { loadMessagesList gw { st2 with currentSessionId := some s0.id }
                with loading := false }
          | [] =>
              { st2 with currentSessionId := none, messages := [],
                         loading := false }
        else { st2 with loading := false }

/-- The observable state of the spec: session list, selected-session
    pointer and message sequence. -/
def obs (st : AppState) : List Session × Option String × List Msg :=
  (st.sessions, st.currentSessionId, st.messages)

/-! ## Timed model of the error slot (setError in src/js/app.js)

setError assigns the message to the error ref immediately and, when
the message is non-empty, registers a timeout that assigns the empty
string 5000 milliseconds later, unconditionally and without cancelling
any earlier timeout.  A run is a list of setError calls given as
(time, message) pairs in call order with non-decreasing times; the
value observed at an instant is the value written by the last
assignment due by then, assignments being ordered by time and, at equal
times, by scheduling order as in the JS macrotask queue. -/

/-- The assignments produced by a run of setError calls: each call
    writes its message at its call time; a call with a non-empty
    message also schedules the clearing write 5000 ms later. -/
def errEvents : List (Nat × String) → List (Nat × String)
  | [] => []
  | (t, m) :: rest =>
      if m = "" then (t, m) :: errEvents rest
      else (t, m) :: (t + 5000, "") :: errEvents rest

/-- Stable insertion of an assignment into a time-sorted list: it goes
    after every assignment with a strictly earlier time and before the
    rest, so equal-time assignments keep their scheduling order. -/
def insEv (ev : Nat × String) : List (Nat × String) → List (Nat × String)
  | [] => [ev]
  | e :: es => if e.1 < ev.1 then e :: insEv ev es else ev :: e :: es

/-- Stable sort of the assignment list by time. -/
def sortEv : List (Nat × String) → List (Nat × String)
  | [] => []
  | e :: es => insEv e (sortEv es)

/-- The error-slot value observed at instant q after a run of setError
    calls: the last due assignment wins; the slot starts empty. -/
def errorAt (calls : List (Nat × String)) (q : Nat) : String :=
  ((sortEv (errEvents calls)).filter (fun ev => ev.1 ≤ q)).foldl
    (fun _ ev => ev.2) ""

/-! ## Helper lemmas about the two refresh transitions -/

/-- loadMessagesList never moves the pointer, the session list, or the
    input buffer. -/
theorem loadMessagesList_preserves (gw : Gateway) (st : AppState) :
    (loadMessagesList gw st).currentSessionId = st.currentSessionId ∧
    (loadMessagesList gw st).sessions = st.sessions ∧
    (loadMessagesList gw st).newMessage = st.newMessage := by
  unfold loadMessagesList
  split
  · exact ⟨rfl, rfl, rfl⟩
  · cases h : gw.getMessages (st.currentSessionId.getD "") with
    | error e => simp [h]
    | ok r => cases r <;> simp [h]

/-- With a truthy pointer and a successful array-valued fetch,
    loadMessagesList replaces the messages with the fetched array. -/
theorem loadMessagesList_ok_arr (gw : Gateway) (st : AppState)
    (c : String) (ms : List Msg)
    (hc : st.currentSessionId = some c) (hne : c ≠ "")
    (hg : gw.getMessages c = .ok (.arr ms)) :
    loadMessagesList gw st =
      { st with error := "", loading := false, messages := ms } := by
  have hf : idFalsy st.currentSessionId = false := by
    simp [idFalsy, hc, hne]
  unfold loadMessagesList
  rw [hf]
  simp only [Bool.false_eq_true, if_false, hc, Option.getD_some, hg]

/-- With a truthy pointer and a successful fetch whose value is not an
    array, loadMessagesList empties the message list. -/
theorem loadMessagesList_ok_nonarr (gw : Gateway) (st : AppState)
    (c : String) (r : MsgResp)
    (hc : st.currentSessionId = some c) (hne : c ≠ "")
    (hg : gw.getMessages c = .ok r) (hr : r.isArr = false) :
    loadMessagesList gw st =
      { st with error := "", loading := false, messages := [] } := by
  have hf : idFalsy st.currentSessionId = false := by
    simp [idFalsy, hc, hne]
  unfold loadMessagesList
  rw [hf]
  cases r with
  | arr ms => simp [MsgResp.isArr] at hr
  | objMessages ms =>
      simp only [Bool.false_eq_true, if_false, hc, Option.getD_some, hg]
  | other =>
      simp only [Bool.false_eq_true, if_false, hc, Option.getD_some, hg]

/-- With a truthy pointer and a failing fetch, loadMessagesList only
    surfaces the error. -/
theorem loadMessagesList_err (gw : Gateway) (st : AppState)
    (c : String) (e : GwError)
    (hc : st.currentSessionId = some c) (hne : c ≠ "")
    (hg : gw.getMessages c = .error e) :
    loadMessagesList gw st =
      { st with error := "加载消息失败：" ++ e.message, loading := false } := by
  have hf : idFalsy st.currentSessionId = false := by
    simp [idFalsy, hc, hne]
  unfold loadMessagesList
  rw [hf]
  simp only [Bool.false_eq_true, if_false, hc, Option.getD_some, hg]

/-- With a truthy pointer, loadSessionsList with a successful
    array-valued fetch replaces the session list and nothing else. -/
theorem loadSessionsList_truthy (gw : Gateway) (st : AppState)
    (c : String) (ss : List Session)
    (hc : st.currentSessionId = some c) (hne : c ≠ "")
    (hls : gw.listSessions = .ok (.arr ss)) :
    loadSessionsList gw st = { st with error := "", sessions := ss } := by
  have hf : idFalsy st.currentSessionId = false := by
    simp [idFalsy, hc, hne]
  unfold loadSessionsList
  rw [hls, hf]
  cases ss <;> rfl

/-- With a truthy pointer, loadSessionsList never changes the pointer,
    the messages, or the input buffer, whatever the gateway returns. -/
theorem loadSessionsList_truthy_preserves (gw : Gateway) (st : AppState)
    (c : String) (hc : st.currentSessionId = some c) (hne : c ≠ "") :
    (loadSessionsList gw st).currentSessionId = some c ∧
    (loadSessionsList gw st).messages = st.messages ∧
    (loadSessionsList gw st).newMessage = st.newMessage := by
  have hf : idFalsy st.currentSessionId = false := by
    simp [idFalsy, hc, hne]
  unfold loadSessionsList
  cases hls : gw.listSessions with
  | error e => simp [hc]
  | ok r => rw [hf]; simp [hc]

/-- A failing session-list fetch only surfaces the error. -/
theorem loadSessionsList_err (gw : Gateway) (st : AppState) (e : GwError)
    (hls : gw.listSessions = .error e) :
    loadSessionsList gw st =
      { st with error := "加载会话列表失败：" ++ e.message } := by
  unfold loadSessionsList
  rw [hls]

/-- With a falsy pointer and a successful non-empty array result,
    loadSessionsList installs the list, selects its first session and
    continues into loadMessagesList. -/
theorem loadSessionsList_falsy_cons (gw : Gateway) (st : AppState)
    (s0 : Session) (rest : List Session)
    (hf : idFalsy st.currentSessionId = true)
    (hls : gw.listSessions = .ok (.arr (s0 :: rest))) :
    loadSessionsList gw st =
      loadMessagesList gw
        { st with error := "", sessions := s0 :: rest,
                  currentSessionId := some s0.id } := by
  unfold loadSessionsList
  rw [hls, hf]
  rfl

/-- A successful session-list fetch whose value is not an array leaves
    the local session list empty. -/
theorem loadSessionsList_ok_nonarr (gw : Gateway) (st : AppState)
    (hls : gw.listSessions = .ok .other) :
    loadSessionsList gw st = { st with error := "", sessions := [] } := by
  unfold loadSessionsList
  rw [hls]
  cases hf : idFalsy st.currentSessionId <;> rfl

/-! ## Concrete fixtures used by witnesses and counterexamples -/

/-- A sample session record. -/
def sessA : Session := { id := "a", name := "A", message_count := 1, updated_at := "u1" }

/-- A second sample session record. -/
def sessB : Session := { id := "b", name := "B", message_count := 2, updated_at := "u2" }

/-- A sample stored message. -/
def msgOld : Msg := { role := "user", content := "old", created_at := "t0" }

/-- A sample fetched message. -/
def msgNew : Msg := { role := "assistant", content := "new", created_at := "t1" }

/-- A gateway whose every call fails with the same transport error. -/
def gwDown : Gateway where
  listSessions := .error { message := "down" }
  createSession := .error { message := "down" }
  getMessages := fun _ => .error { message := "down" }
  sendMessage := fun _ _ => .error { message := "down" }
  rollback := fun _ _ => .error { message := "down" }
  deleteMessage := fun _ _ => .error { message := "down" }
  deleteSession := fun _ => .error { message := "down" }

/-- A gateway whose every call succeeds with a well-shaped value. -/
def gwOk : Gateway where
  listSessions := .ok (.arr [sessA, sessB])
  createSession := .ok (.arr [])
  getMessages := fun _ => .ok (.arr [msgNew])
  sendMessage := fun _ _ => .ok (.arr [msgNew])
  rollback := fun _ _ => .ok (.arr [msgNew])
  deleteMessage := fun _ _ => .ok (.arr [msgNew])
  deleteSession := fun _ => .ok ()

/-- A gateway whose every call succeeds with a value of an unexpected
    shape (neither an array nor an object with a messages field). -/
def gwOdd : Gateway where
  listSessions := .ok .other
  createSession := .ok .other
  getMessages := fun _ => .ok .other
  sendMessage := fun _ _ => .ok .other
  rollback := fun _ _ => .ok .other
  deleteMessage := fun _ _ => .ok .other
  deleteSession := fun _ => .ok ()

/-- A sample pre-state with two sessions, the first one selected. -/
def stBase : AppState :=
  { sessions := [sessA, sessB], currentSessionId := some "a",
    messages := [msgOld], newMessage := "hi", loading := false,
    error := "" }

/-! ## Claim theorems -/

/-- C1: with a session selected and non-empty trimmed input, a failing
    append call leaves the message sequence identical to the
    pre-transition sequence (the optimistic message is removed from the
    end), leaves the session list and the pointer unchanged, clears the
    input buffer, and surfaces the error in the error slot. -/
theorem sendMsg_failure_restores_state (gw : Gateway) (now : String)
    (st : AppState) (c : String) (e : GwError)
    (hc : st.currentSessionId = some c) (hne : c ≠ "")
    (ht : (jsTrim st.newMessage) ≠ "")
    (hfail : gw.sendMessage c (jsTrim st.newMessage) = .error e) :
    (sendMsg gw now st).messages = st.messages ∧
    (sendMsg gw now st).sessions = st.sessions ∧
    (sendMsg gw now st).currentSessionId = st.currentSessionId ∧
    (sendMsg gw now st).newMessage = "" ∧
    (sendMsg gw now st).error = "发送消息失败：" ++ e.message := by
  have hf : idFalsy st.currentSessionId = false := by
    simp [idFalsy, hc, hne]
  unfold sendMsg
  rw [hf]
  simp only [Bool.false_eq_true, if_false, hc, Option.getD_some, hfail,
    if_neg ht]
  simp

/-- C1 witness: the theorem instantiated at a concrete state and a
    gateway whose append call fails. -/
theorem sendMsg_failure_restores_state_witness :
    (sendMsg gwDown "now" stBase).messages = stBase.messages ∧
    (sendMsg gwDown "now" stBase).sessions = stBase.sessions ∧
    (sendMsg gwDown "now" stBase).currentSessionId =
      stBase.currentSessionId ∧
    (sendMsg gwDown "now" stBase).newMessage = "" ∧
    (sendMsg gwDown "now" stBase).error = "发送消息失败：" ++ "down" :=
  sendMsg_failure_restores_state gwDown "now" stBase "a" { message := "down" }
    rfl (by decide) (by decide) rfl

/-- C4 counterexample: invoking sendMsg with no session selected is not
    a silent no-op: the code places a prompt message in the error slot,
    so the error slot is not left empty. -/
theorem sendMsg_no_session_counterexample :
    (sendMsg gwDown "now"
        { stBase with currentSessionId := none }).error ≠ "" ∧
    (sendMsg gwDown "now"
        { stBase with currentSessionId := none }).error =
      "请先选择或创建会话" := by
  constructor
  · decide
  · rfl

/-- C4 (amended): with a falsy session pointer, sendMsg makes no
    gateway call and changes nothing except the error slot, which is
    set to a prompt to select or create a session first; with a session
    selected and empty trimmed input, sendMsg is a pure no-op. -/
theorem sendMsg_skip_behavior (gw : Gateway) (now : String)
    (st : AppState) :
    (idFalsy st.currentSessionId = true →
      sendMsg gw now st = { st with error := "请先选择或创建会话" }) ∧
    (∀ c, st.currentSessionId = some c → c ≠ "" →
      (jsTrim st.newMessage) = "" → sendMsg gw now st = st) := by
  constructor
  · intro hfa
    unfold sendMsg
    rw [hfa]
    rfl
  · intro c hc hne ht
    have hf : idFalsy st.currentSessionId = false := by
      simp [idFalsy, hc, hne]
    unfold sendMsg
    rw [hf]
    simp [ht]

/-- C4 witness: both amended branches at concrete inputs: no session
    selected, and a selected session with whitespace-only input. -/
theorem sendMsg_skip_behavior_witness :
    sendMsg gwDown "now" { stBase with currentSessionId := none } =
      { stBase with currentSessionId := none,
                    error := "请先选择或创建会话" } ∧
    sendMsg gwDown "now" { stBase with newMessage := "  " } =
      { stBase with newMessage := "  " } :=
  ⟨(sendMsg_skip_behavior gwDown "now"
      { stBase with currentSessionId := none }).1 rfl,
   (sendMsg_skip_behavior gwDown "now"
      { stBase with newMessage := "  " }).2 "a" rfl (by decide) (by decide)⟩

/-- C2 counterexample: selectSession with a failing message fetch ends
    the transition in a partial state the claim says never persists:
    the pointer names the newly requested session while the message
    sequence still holds the previous session messages. -/
theorem selectSession_failure_partial_state :
    (selectSession gwDown "b" stBase).currentSessionId = some "b" ∧
    (selectSession gwDown "b" stBase).messages = stBase.messages ∧
    stBase.currentSessionId ≠ some "b" ∧ stBase.messages ≠ [] := by
  refine ⟨rfl, rfl, by decide, by decide⟩

/-- C2 (amended): when the primary gateway call of a transition fails,
    the observable state (session list, pointer, messages) equals its
    pre-transition value for refresh-session-list, refresh-messages,
    send, rollback, delete-message, create-session and delete-session;
    select-session is the exception: on a failing fetch the pointer
    commits to the new identifier while the session list and the
    message sequence keep their pre-transition values. -/
theorem gateway_failure_rollback (gw : Gateway) (st : AppState) :
    (∀ e, gw.listSessions = .error e →
      obs (loadSessionsList gw st) = obs st) ∧
    (∀ c e, st.currentSessionId = some c → c ≠ "" →
      gw.getMessages c = .error e →
      obs (loadMessagesList gw st) = obs st) ∧
    (∀ now c e, st.currentSessionId = some c → c ≠ "" →
      (jsTrim st.newMessage) ≠ "" →
      gw.sendMessage c (jsTrim st.newMessage) = .error e →
      obs (sendMsg gw now st) = obs st) ∧
    (∀ i c e, st.currentSessionId = some c → c ≠ "" →
      gw.rollback c i = .error e →
      obs (rollbackTo gw i st) = obs st) ∧
    (∀ i c e, st.currentSessionId = some c → c ≠ "" →
      gw.deleteMessage c i = .error e →
      obs (deleteMsg gw true i st) = obs st) ∧
    (∀ e, gw.createSession = .error e →
      obs (createNewSession gw st) = obs st) ∧
    (∀ sid e, gw.deleteSession sid = .error e →
      obs (deleteSess gw true sid st) = obs st) ∧
    (∀ id e, id ≠ "" → st.currentSessionId ≠ some id →
      gw.getMessages id = .error e →
      (selectSession gw id st).currentSessionId = some id ∧
      (selectSession gw id st).messages = st.messages ∧
      (selectSession gw id st).sessions = st.sessions) := by
  refine ⟨?_, ?_, ?_, ?_, ?_, ?_, ?_, ?_⟩
  · intro e hls
    rw [loadSessionsList_err gw st e hls]
    rfl
  · intro c e hc hne hg
    rw [loadMessagesList_err gw st c e hc hne hg]
    rfl
  · intro now c e hc hne ht hfail
    have h := sendMsg_failure_restores_state gw now st c e hc hne ht hfail
    simp [obs, h.1, h.2.1, h.2.2.1]
  · intro i c e hc hne hr
    have hf : idFalsy st.currentSessionId = false := by
      simp [idFalsy, hc, hne]
    unfold rollbackTo
    rw [hf]
    simp only [Bool.false_eq_true, if_false, hc, Option.getD_some, hr]
    simp [obs, hc]
  · intro i c e hc hne hd
    have hf : idFalsy st.currentSessionId = false := by
      simp [idFalsy, hc, hne]
    unfold deleteMsg
    rw [hf]
    simp only [Bool.false_eq_true, if_false, hc, Option.getD_some, hd,
      not_true, ite_false]
    simp [obs, hc]
  · intro e hcr
    unfold createNewSession
    rw [hcr]
    rfl
  · intro sid e hdel
    unfold deleteSess
    rw [hdel]
    rfl
  · intro id e hid hcur hg
    have hsel : selectSession gw id st =
        loadMessagesList gw { st with currentSessionId := some id } := by
      unfold selectSession
      rw [if_neg]
      simp [hid, hcur]
    rw [hsel,
      loadMessagesList_err gw { st with currentSessionId := some id } id e
        rfl hid hg]
    exact ⟨rfl, rfl, rfl⟩

/-- C2 witness: all eight parts of the amended theorem instantiated at
    a concrete state and the everything-fails gateway. -/
theorem gateway_failure_rollback_witness :
    obs (loadSessionsList gwDown stBase) = obs stBase ∧
    obs (loadMessagesList gwDown stBase) = obs stBase ∧
    obs (sendMsg gwDown "now" stBase) = obs stBase ∧
    obs (rollbackTo gwDown 0 stBase) = obs stBase ∧
    obs (deleteMsg gwDown true 0 stBase) = obs stBase ∧
    obs (createNewSession gwDown stBase) = obs stBase ∧
    obs (deleteSess gwDown true "b" stBase) = obs stBase ∧
    ((selectSession gwDown "b" stBase).currentSessionId = some "b" ∧
     (selectSession gwDown "b" stBase).messages = stBase.messages ∧
     (selectSession gwDown "b" stBase).sessions = stBase.sessions) := by
  have h := gateway_failure_rollback gwDown stBase
  exact ⟨h.1 { message := "down" } rfl,
    h.2.1 "a" { message := "down" } rfl (by decide) rfl,
    h.2.2.1 "now" "a" { message := "down" } rfl (by decide) (by decide) rfl,
    h.2.2.2.1 0 "a" { message := "down" } rfl (by decide) rfl,
    h.2.2.2.2.1 0 "a" { message := "down" } rfl (by decide) rfl,
    h.2.2.2.2.2.1 { message := "down" } rfl,
    h.2.2.2.2.2.2.1 "b" { message := "down" } rfl,
    h.2.2.2.2.2.2.2 "b" { message := "down" } (by decide) (by decide) rfl⟩

/-- C3 counterexample: selecting an identifier that occurs in no local
    session leaves a non-empty session list whose members are all
    different from the pointer, so the pointer does not reference the
    identifier of some session in the list. -/
theorem pointer_invariant_counterexample :
    (selectSession gwOk "ghost" stBase).sessions ≠ [] ∧
    (selectSession gwOk "ghost" stBase).currentSessionId = some "ghost" ∧
    (∀ s ∈ (selectSession gwOk "ghost" stBase).sessions,
      (selectSession gwOk "ghost" stBase).currentSessionId ≠ some s.id) := by
  refine ⟨by decide, rfl, by decide⟩

/-- C3 (amended): the pointer-in-list invariant is not maintained; what
    the code guarantees is: after a successful refresh a falsy pointer
    is set to the first id of a non-empty returned list, a truthy
    pointer is kept verbatim even when the returned list no longer
    contains it, and selectSession moves the pointer to any requested
    non-empty identifier whether or not it occurs in the local list. -/
theorem pointer_fallback_only_when_falsy (gw : Gateway) (st : AppState) :
    (∀ s0 rest, gw.listSessions = .ok (.arr (s0 :: rest)) →
      st.currentSessionId = none →
      (loadSessionsList gw st).currentSessionId = some s0.id) ∧
    (∀ r c, gw.listSessions = .ok r → st.currentSessionId = some c →
      c ≠ "" → (loadSessionsList gw st).currentSessionId = some c) ∧
    (∀ id, id ≠ "" → st.currentSessionId ≠ some id →
      (selectSession gw id st).currentSessionId = some id) := by
  refine ⟨?_, ?_, ?_⟩
  · intro s0 rest hls hc
    rw [loadSessionsList_falsy_cons gw st s0 rest (by simp [idFalsy, hc])
      hls]
    exact (loadMessagesList_preserves gw _).1
  · intro r c hls hc hne
    exact ((loadSessionsList_truthy_preserves gw st c hc hne).1)
  · intro id hid hcur
    unfold selectSession
    rw [if_neg (by simp [hid, hcur])]
    exact (loadMessagesList_preserves gw _).1

/-- C3 witness: the amended theorem instantiated concretely: a refresh
    from a state with no selection picks the first returned session, a
    refresh keeps a selected id absent from the returned list, and
    selectSession installs an arbitrary identifier. -/
theorem pointer_fallback_only_when_falsy_witness :
    (loadSessionsList gwOk
        { stBase with currentSessionId := none }).currentSessionId =
      some sessA.id ∧
    (loadSessionsList gwOk
        { stBase with currentSessionId := some "zzz" }).currentSessionId =
      some "zzz" ∧
    (selectSession gwOk "ghost" stBase).currentSessionId = some "ghost" :=
  ⟨(pointer_fallback_only_when_falsy gwOk
      { stBase with currentSessionId := none }).1 sessA [sessB] rfl rfl,
   (pointer_fallback_only_when_falsy gwOk
      { stBase with currentSessionId := some "zzz" }).2.1
      (.arr [sessA, sessB]) "zzz" rfl rfl (by decide),
   (pointer_fallback_only_when_falsy gwOk stBase).2.2 "ghost" (by decide)
      (by decide)⟩

/-- C5: after a confirmed, successful delete of the selected session
    followed by a successful list refresh: with sessions remaining, the
    pointer moves to the first returned session and its successfully
    fetched messages become the local sequence; with none remaining,
    the pointer is cleared and the message sequence emptied; deleting a
    session other than the selected one keeps the pointer. -/
theorem deleteSess_cascade (gw : Gateway) (st : AppState) (sid : String)
    (ss : List Session)
    (hdel : gw.deleteSession sid = .ok ())
    (hls : gw.listSessions = .ok (.arr ss)) :
    (∀ s0 rest ms, ss = s0 :: rest → s0.id ≠ "" →
      gw.getMessages s0.id = .ok (.arr ms) →
      st.currentSessionId = some sid → sid ≠ "" →
      (deleteSess gw true sid st).currentSessionId = some s0.id ∧
      (deleteSess gw true sid st).messages = ms) ∧
    (ss = [] → st.currentSessionId = some sid → sid ≠ "" →
      (deleteSess gw true sid st).currentSessionId = none ∧
      (deleteSess gw true sid st).messages = []) ∧
    (∀ c, st.currentSessionId = some c → c ≠ "" → c ≠ sid →
      (deleteSess gw true sid st).currentSessionId = some c) := by
  have hload : ∀ hc : st.currentSessionId = some sid, sid ≠ "" →
      loadSessionsList gw { st with error := "" } =
        { st with error := "", sessions := ss } := by
    intro hc hsid
    exact loadSessionsList_truthy gw _ sid ss (by simp [hc]) hsid hls
  refine ⟨?_, ?_, ?_⟩
  · intro s0 rest ms hss hs0 hg hc hsid
    subst hss
    unfold deleteSess
    rw [hdel]
    simp only [not_true, Bool.not_true, Bool.false_eq_true, if_false,
      hload hc hsid]
    rw [if_pos (by simp [hc])]
    simp only []
    rw [loadMessagesList_ok_arr gw _ s0.id ms rfl hs0 hg]
    exact ⟨rfl, rfl⟩
  · intro hss hc hsid
    subst hss
    unfold deleteSess
    rw [hdel]
    simp only [not_true, Bool.not_true, Bool.false_eq_true, if_false,
      hload hc hsid]
    rw [if_pos (by simp [hc])]
    exact ⟨rfl, rfl⟩
  · intro c hc hne hcsid
    unfold deleteSess
    rw [hdel]
    have h2 : loadSessionsList gw { st with error := "" } =
        { st with error := "", sessions := ss } :=
      loadSessionsList_truthy gw _ c ss (by simp [hc]) hne hls
    simp only [not_true, Bool.not_true, Bool.false_eq_true, if_false, h2]
    rw [if_neg (by simp [hc, hcsid])]
    simp [hc]

/-- C5 witness: the three parts at concrete inputs: deleting the
    selected session with one session remaining, deleting the selected
    session with none remaining, and deleting a non-selected session. -/
theorem deleteSess_cascade_witness :
    ((deleteSess gwOk true "a" stBase).currentSessionId = some sessA.id ∧
     (deleteSess gwOk true "a" stBase).messages = [msgNew]) ∧
    ((deleteSess (Gateway.mk (.ok (.arr [])) gwOk.createSession
          gwOk.getMessages gwOk.sendMessage gwOk.rollback
          gwOk.deleteMessage gwOk.deleteSession) true "a"
        stBase).currentSessionId = none ∧
     (deleteSess (Gateway.mk (.ok (.arr [])) gwOk.createSession
          gwOk.getMessages gwOk.sendMessage gwOk.rollback
          gwOk.deleteMessage gwOk.deleteSession) true "a"
        stBase).messages = []) ∧
    (deleteSess gwOk true "b" stBase).currentSessionId = some "a" :=
  ⟨(deleteSess_cascade gwOk stBase "a" [sessA, sessB] rfl rfl).1
      sessA [sessB] [msgNew] rfl (by decide) rfl rfl (by decide),
   (deleteSess_cascade (Gateway.mk (.ok (.arr [])) gwOk.createSession
        gwOk.getMessages gwOk.sendMessage gwOk.rollback
        gwOk.deleteMessage gwOk.deleteSession) stBase "a" [] rfl rfl).2.1
      rfl rfl (by decide),
   (deleteSess_cascade gwOk stBase "b" [sessA, sessB] rfl rfl).2.2
      "a" rfl (by decide) (by decide)⟩

/-- C6: a successful refresh whose value is an array replaces the
    session list verbatim with the returned sequence; and when nothing
    was selected and the returned list is non-empty, the first returned
    session becomes selected and its successfully fetched messages are
    stored in the same transition. -/
theorem loadSessionsList_verbatim (gw : Gateway) (st : AppState)
    (ss : List Session)
    (hls : gw.listSessions = .ok (.arr ss)) :
    (loadSessionsList gw st).sessions = ss ∧
    (∀ s0 rest ms, ss = s0 :: rest → st.currentSessionId = none →
      s0.id ≠ "" → gw.getMessages s0.id = .ok (.arr ms) →
      (loadSessionsList gw st).currentSessionId = some s0.id ∧
      (loadSessionsList gw st).messages = ms) := by
  constructor
  · cases hf : idFalsy st.currentSessionId with
    | false =>
        unfold loadSessionsList
        rw [hls, hf]
        cases ss <;> rfl
    | true =>
        cases ss with
        | nil =>
            unfold loadSessionsList
            rw [hls, hf]
            rfl
        | cons s0 rest =>
            rw [loadSessionsList_falsy_cons gw st s0 rest hf hls]
            exact ((loadMessagesList_preserves gw _).2.1)
  · intro s0 rest ms hss hc hs0 hg
    subst hss
    rw [loadSessionsList_falsy_cons gw st s0 rest (by simp [idFalsy, hc])
      hls]
    rw [loadMessagesList_ok_arr gw _ s0.id ms rfl hs0 hg]
    exact ⟨rfl, rfl⟩

/-- C6 witness: the theorem at a concrete gateway returning two
    sessions, from a state with no selection. -/
theorem loadSessionsList_verbatim_witness :
    (loadSessionsList gwOk
        { stBase with currentSessionId := none }).sessions =
      [sessA, sessB] ∧
    (loadSessionsList gwOk
        { stBase with currentSessionId := none }).currentSessionId =
      some sessA.id ∧
    (loadSessionsList gwOk
        { stBase with currentSessionId := none }).messages = [msgNew] := by
  have h := loadSessionsList_verbatim gwOk
    { stBase with currentSessionId := none } [sessA, sessB] rfl
  have h2 := h.2 sessA [sessB] [msgNew] rfl rfl (by decide) rfl
  exact ⟨h.1, h2.1, h2.2⟩

/-- C7 counterexample: an error set at 0 ms and a newer error set at
    3000 ms; at 5000 ms the timer of the older error fires and clears
    the slot, so the newer message does not survive its own five-second
    lifetime as the claim states (it should still read e2 until
    8000 ms). -/
theorem setError_supersede_counterexample :
    errorAt [(0, "e1"), (3000, "e2")] 4999 = "e2" ∧
    errorAt [(0, "e1"), (3000, "e2")] 5000 = "" ∧
    ("" : String) ≠ "e2" := by
  refine ⟨rfl, rfl, by decide⟩

/-- C7 (amended): every setError call with a non-empty message shows
    the message immediately and schedules an unconditional clear 5000
    ms later; an undisturbed error therefore clears exactly 5000 ms
    after it was set, but the timer of an earlier error is not
    cancelled by a newer one: the newer message is displayed only until
    the earlier timer fires, and from then until its own timer the slot
    stays empty. -/
theorem setError_timer_behavior :
    (∀ t m q, m ≠ "" → t ≤ q → q < t + 5000 →
      errorAt [(t, m)] q = m) ∧
    (∀ t m q, m ≠ "" → t + 5000 ≤ q → errorAt [(t, m)] q = "") ∧
    (∀ t1 m1 t2 m2 q, m1 ≠ "" → m2 ≠ "" → t1 < t2 → t2 < t1 + 5000 →
      t2 ≤ q → q < t1 + 5000 → errorAt [(t1, m1), (t2, m2)] q = m2) ∧
    (∀ t1 m1 t2 m2 q, m1 ≠ "" → m2 ≠ "" → t1 < t2 → t2 < t1 + 5000 →
      t1 + 5000 ≤ q → q < t2 + 5000 →
      errorAt [(t1, m1), (t2, m2)] q = "") := by
  refine ⟨?_, ?_, ?_, ?_⟩
  · intro t m q hm h1 h2
    have e1 : ¬ (t + 5000 < t) := by omega
    have e2 : ¬ (t + 5000 ≤ q) := by omega
    simp [errorAt, errEvents, sortEv, insEv, hm, e1, h1, e2]
  · intro t m q hm h1
    have e1 : ¬ (t + 5000 < t) := by omega
    have e2 : t ≤ q := by omega
    simp [errorAt, errEvents, sortEv, insEv, hm, e1, e2, h1]
  · intro t1 m1 t2 m2 q hm1 hm2 h12 hin hq1 hq2
    have e1 : ¬ (t2 + 5000 < t2) := by omega
    have e2 : t2 < t1 + 5000 := hin
    have e3 : ¬ (t2 + 5000 < t1 + 5000) := by omega
    have e4 : ¬ (t2 < t1) := by omega
    have e5 : t1 ≤ q := by omega
    have e6 : ¬ (t1 + 5000 ≤ q) := by omega
    have e7 : ¬ (t2 + 5000 ≤ q) := by omega
    simp [errorAt, errEvents, sortEv, insEv, hm1, hm2, e1, e2, e3, e4,
      e5, hq1, e6, e7]
  · intro t1 m1 t2 m2 q hm1 hm2 h12 hin hq1 hq2
    have e1 : ¬ (t2 + 5000 < t2) := by omega
    have e2 : t2 < t1 + 5000 := hin
    have e3 : ¬ (t2 + 5000 < t1 + 5000) := by omega
    have e4 : ¬ (t2 < t1) := by omega
    have e5 : t1 ≤ q := by omega
    have e6 : t2 ≤ q := by omega
    have e7 : ¬ (t2 + 5000 ≤ q) := by omega
    simp [errorAt, errEvents, sortEv, insEv, hm1, hm2, e1, e2, e3, e4,
      e5, e6, hq1, e7]

/-- C7 witness: the four parts at concrete instants: a lone error is
    visible at 4999 ms and gone at 5000 ms; a superseding error at
    3000 ms is visible at 4999 ms and already cleared at 5000 ms. -/
theorem setError_timer_behavior_witness :
    errorAt [(0, "e1")] 4999 = "e1" ∧
    errorAt [(0, "e1")] 5000 = "" ∧
    errorAt [(0, "e1"), (3000, "e2")] 4999 = "e2" ∧
    errorAt [(0, "e1"), (3000, "e2")] 5000 = "" :=
  ⟨setError_timer_behavior.1 0 "e1" 4999 (by decide) (by omega) (by omega),
   setError_timer_behavior.2.1 0 "e1" 5000 (by decide) (by omega),
   setError_timer_behavior.2.2.1 0 "e1" 3000 "e2" 4999 (by decide)
     (by decide) (by omega) (by omega) (by omega) (by omega),
   setError_timer_behavior.2.2.2 0 "e1" 3000 "e2" 5000 (by decide)
     (by decide) (by omega) (by omega) (by omega) (by omega)⟩

/-- C8: a gateway request succeeds exactly when the status is in the
    2xx range; a non-2xx status yields an error embedding the status;
    a successful response is parsed as JSON exactly when the
    content-type header contains application/json and is otherwise
    returned as opaque text. -/
theorem apiFetch_contract (r : HttpResponse) :
    ((∃ out, apiFetch r = .ok out) ↔
      (200 ≤ r.status ∧ r.status ≤ 299)) ∧
    (¬ (200 ≤ r.status ∧ r.status ≤ 299) →
      apiFetch r =
        .error ("API error: " ++ toString r.status ++ " " ++
          r.statusText)) ∧
    ((200 ≤ r.status ∧ r.status ≤ 299) →
      (apiFetch r = .ok (.json r.jsonVal) ↔
        includesStr r.contentType "application/json" = true) ∧
      (apiFetch r = .ok (.text r.bodyText) ↔
        includesStr r.contentType "application/json" = false)) := by
  by_cases hok : 200 ≤ r.status ∧ r.status ≤ 299
  · by_cases hct : includesStr r.contentType "application/json" = true
    · simp [apiFetch, hok, hct]
    · simp [apiFetch, hok, hct]
  · simp [apiFetch, hok]

/-- A concrete 404 response. -/
def resBad : HttpResponse :=
  { status := 404, statusText := "NF", contentType := "",
    bodyText := "x", jsonVal := .nullv }

/-- A concrete 200 response with a JSON content-type. -/
def resJson : HttpResponse :=
  { status := 200, statusText := "OK",
    contentType := "application/json; charset=utf-8",
    bodyText := "[]", jsonVal := .arr [] }

/-- A concrete 204 response with a text content-type. -/
def resText : HttpResponse :=
  { status := 204, statusText := "NC", contentType := "text/plain",
    bodyText := "done", jsonVal := .nullv }

/-- C8 witness: the contract at three concrete responses: a 404, a 200
    with a JSON content-type and a 204 with a text content-type. -/
theorem apiFetch_contract_witness :
    apiFetch resBad =
      .error ("API error: " ++ toString (404 : Nat) ++ " " ++ "NF") ∧
    (apiFetch resJson = .ok (.json resJson.jsonVal) ↔
      includesStr resJson.contentType "application/json" = true) ∧
    (apiFetch resText = .ok (.text resText.bodyText) ↔
      includesStr resText.contentType "application/json" = false) :=
  ⟨(apiFetch_contract resBad).2.1 (by decide),
   ((apiFetch_contract resJson).2.2 (by decide)).1,
   ((apiFetch_contract resText).2.2 (by decide)).2⟩

/-- C9: the URL built by apiFetch from a base with a single trailing
    slash equals the URL built from the base without it, for every
    path; apiFetch strips at most one trailing slash. -/
theorem apiUrl_trailing_slash (b p : List Char)
    (h : b.getLast? ≠ some '/') :
    apiUrl (b ++ ['/']) p = apiUrl b p := by
  unfold apiUrl jsStripTrailingSlash
  rw [if_neg h, if_pos (by simp), List.dropLast_concat]

/-- C9 witness: the two spellings of a concrete base produce the same
    URL for the sessions path. -/
theorem apiUrl_trailing_slash_witness :
    ("http://h/api".data.getLast? ≠ some '/') ∧
    apiUrl ("http://h/api".data ++ ['/']) "/sessions".data =
      apiUrl "http://h/api".data "/sessions".data :=
  ⟨by decide, apiUrl_trailing_slash _ _ (by decide)⟩

/-- C10: when a gateway call succeeds with a value of an unexpected
    shape: refresh-session-list and refresh-messages fail safe to the
    empty list; send keeps the optimistic user message appended to the
    pre-transition sequence; rollback and delete-message leave the
    message sequence unchanged. -/
theorem malformed_success_failsafe (gw : Gateway) (st : AppState) :
    (gw.listSessions = .ok .other →
      (loadSessionsList gw st).sessions = []) ∧
    (∀ c r, st.currentSessionId = some c → c ≠ "" →
      gw.getMessages c = .ok r → r.isArr = false →
      (loadMessagesList gw st).messages = []) ∧
    (∀ now c, st.currentSessionId = some c → c ≠ "" →
      (jsTrim st.newMessage) ≠ "" →
      gw.sendMessage c (jsTrim st.newMessage) = .ok .other →
      (sendMsg gw now st).messages =
        st.messages ++ [optimisticUserMsg (jsTrim st.newMessage) now]) ∧
    (∀ i c, st.currentSessionId = some c → c ≠ "" →
      gw.rollback c i = .ok .other →
      (rollbackTo gw i st).messages = st.messages) ∧
    (∀ i c, st.currentSessionId = some c → c ≠ "" →
      gw.deleteMessage c i = .ok .other →
      (deleteMsg gw true i st).messages = st.messages) := by
  refine ⟨?_, ?_, ?_, ?_, ?_⟩
  · intro hls
    rw [loadSessionsList_ok_nonarr gw st hls]
  · intro c r hc hne hg hr
    rw [loadMessagesList_ok_nonarr gw st c r hc hne hg hr]
  · intro now c hc hne ht hsend
    have hf : idFalsy st.currentSessionId = false := by
      simp [idFalsy, hc, hne]
    unfold sendMsg
    rw [hf]
    simp only [Bool.false_eq_true, if_false, hc, Option.getD_some,
      hsend, if_neg ht]
    exact (loadSessionsList_truthy_preserves gw _ c rfl hne).2.1
  · intro i c hc hne hr
    have hf : idFalsy st.currentSessionId = false := by
      simp [idFalsy, hc, hne]
    unfold rollbackTo
    rw [hf]
    simp only [Bool.false_eq_true, if_false, hc, Option.getD_some, hr]
    exact (loadSessionsList_truthy_preserves gw _ c rfl hne).2.1
  · intro i c hc hne hd
    have hf : idFalsy st.currentSessionId = false := by
      simp [idFalsy, hc, hne]
    unfold deleteMsg
    rw [hf]
    simp only [Bool.false_eq_true, if_false, hc, Option.getD_some, hd,
      not_true, ite_false]
    exact (loadSessionsList_truthy_preserves gw _ c rfl hne).2.1

/-- C10 witness: all five parts at a concrete state and the gateway
    that always resolves with a value of unexpected shape. -/
theorem malformed_success_failsafe_witness :
    (loadSessionsList gwOdd stBase).sessions = [] ∧
    (loadMessagesList gwOdd stBase).messages = [] ∧
    (sendMsg gwOdd "now" stBase).messages =
      stBase.messages ++
        [optimisticUserMsg (jsTrim stBase.newMessage) "now"] ∧
    (rollbackTo gwOdd 0 stBase).messages = stBase.messages ∧
    (deleteMsg gwOdd true 0 stBase).messages = stBase.messages := by
  have h := malformed_success_failsafe gwOdd stBase
  exact ⟨h.1 rfl,
    h.2.1 "a" .other rfl (by decide) rfl rfl,
    h.2.2.1 "now" "a" rfl (by decide) (by decide) rfl,
    h.2.2.2.1 0 "a" rfl (by decide) rfl,
    h.2.2.2.2 0 "a" rfl (by decide) rfl⟩

end AIChat
